import Mathlib

/-!
Shallow embedding of `mergesvvcf/mergedfile.py` (the merge driver of the
mergevcf repository) and proofs about it.

Python values that flow through the INFO-field aggregation are modelled by
`PyVal` (an int, a string, or `None`); Python exceptions by `PyExc`; fallible
Python code by `Except PyExc`.  Strings are Lean `String`s, with slicing and
ordering computed on the underlying character lists.
-/

namespace Mergevcf

/-- Python exception classes that the code of `mergedfile.py` can raise or
catch. -/
inductive PyExc where
  | ValueError
  | TypeError
  | NameError
  | AttributeError
  | RuntimeError
  | IndexError
  | AssertionError
  | OSError
deriving DecidableEq, Repr

/-- A Python scalar value reaching the INFO aggregation: an int, a string, or
`None`. -/
inductive PyVal where
  | vint (i : Int)
  | vstr (s : String)
  | vnone
deriving DecidableEq, Repr

/-- Argument shape of `int_if_possible`: either a scalar or a Python list of
scalars (pysam hands back tuples/lists for multi-valued INFO fields). -/
inductive RawVal where
  | single (v : PyVal)
  | listv (vs : List PyVal)
deriving DecidableEq, Repr

/-- Decimal digit value of a character, if it is one. -/
def charDigit (c : Char) : Option Nat :=
  if 48 ≤ c.toNat && c.toNat ≤ 57 then some (c.toNat - 48) else none

/-- Value of a nonempty all-digit character list, `none` otherwise. -/
def digitsVal (cs : List Char) : Option Nat :=
  if cs.isEmpty then none
  else cs.foldlM (fun n c => (charDigit c).map (fun d => 10 * n + d)) 0

/-- Leading and trailing spaces removed (Python `int` ignores surrounding
whitespace; plain spaces suffice for this model). -/
def stripSpaces (cs : List Char) : List Char :=
  ((cs.dropWhile (fun c => c = ' ')).reverse.dropWhile (fun c => c = ' ')).reverse

/-- Model of Python `int(s)` on a string: optional sign followed by digits,
else failure. -/
def pyParseInt (s : String) : Option Int :=
  match stripSpaces s.toList with
  | '-' :: rest => (digitsVal rest).map (fun n => -(n : Int))
  | '+' :: rest => (digitsVal rest).map (fun n => (n : Int))
  | cs => (digitsVal cs).map (fun n => (n : Int))

/-- Model of Python `int(val)` on the scalars that reach `int_if_possible`:
ints pass through, strings parse or raise `ValueError`, `None` raises
`TypeError`. -/
def pyInt : PyVal → Except PyExc Int
  | .vint i => .ok i
  | .vstr s =>
    match pyParseInt s with
    | some i => .ok i
    | none => .error .ValueError
  | .vnone => .error .TypeError

/-- `int_if_possible(val)` from `mergedfile.py`: a list argument is replaced by
its first element (`val[0]`, `IndexError` on an empty list); then `int(val)`
is attempted, with only `ValueError` caught (returning the unconverted
value). -/
def int_if_possible (val : RawVal) : Except PyExc PyVal :=
  match (match val with
         | .single v => Except.ok v
         | .listv [] => Except.error PyExc.IndexError
         | .listv (v :: _) => Except.ok v : Except PyExc PyVal) with
  | .error e => .error e
  | .ok v =>
    match pyInt v with
    | .ok i => .ok (.vint i)
    | .error .ValueError => .ok v
    | .error e => .error e

/-- Python `==` on the values at hand (`None`, ints and strings are mutually
unequal; in particular the string `"0"` is not `== 0`). -/
def pyValEq : PyVal → PyVal → Bool
  | .vint i, .vint j => i == j
  | .vstr s, .vstr t => s == t
  | .vnone, .vnone => true
  | _, _ => false

/-- Lexicographic comparison of character lists by code point, as Python
compares strings. -/
def lexLe : List Char → List Char → Bool
  | [], _ => true
  | _ :: _, [] => false
  | a :: as, b :: bs =>
    if a.toNat < b.toNat then true
    else if b.toNat < a.toNat then false
    else lexLe as bs

/-- Insertion of `a` into an already sorted list, before the first element it
compares `le` to. -/
def insertSorted {α : Type} (le : α → α → Bool) (a : α) : List α → List α
  | [] => [a]
  | b :: bs => if le a b then a :: b :: bs else b :: insertSorted le a bs

/-- Stable sorting by insertion; on a total preorder this yields the same
list as Python `sorted` (also stable). -/
def pySortList {α : Type} (le : α → α → Bool) : List α → List α
  | [] => []
  | a :: as => insertSorted le a (pySortList le as)

/-- Model of Python `sorted(answers)`: a homogeneous list of ints or of
strings is sorted (stably); comparing values of different types, or `None`,
raises `TypeError`.  (The lists this program sorts are outputs of
`int_if_possible`, hence never contain `None`.) -/
def pySort (l : List PyVal) : Except PyExc (List PyVal) :=
  if l.all (fun v => match v with | .vint _ => true | _ => false) then
    .ok ((pySortList (fun a b => decide (a ≤ b))
            (l.filterMap (fun v => match v with | .vint i => some i | _ => none))).map .vint)
  else if l.all (fun v => match v with | .vstr _ => true | _ => false) then
    .ok ((pySortList (fun a b => lexLe a.toList b.toList)
            (l.filterMap (fun v => match v with | .vstr s => some s | _ => none))).map .vstr)
  else
    .error .TypeError

/-- The slice of INFO fields of one input record that `make_info_dict` reads:
`record.info['CHR2' | 'END' | 'SVTYPE' | 'SVLEN']`, each possibly absent. -/
structure RecInfo where
  CHR2 : Option RawVal := none
  END : Option RawVal := none
  SVTYPE : Option RawVal := none
  SVLEN : Option RawVal := none
deriving DecidableEq, Repr

/-- The `answers` list collected for one field: for each record holding the
field, `int_if_possible` of its value, in record order; the first conversion
error propagates, exactly as in the Python loop. -/
def fieldAnswers (proj : RecInfo → Option RawVal) :
    List RecInfo → Except PyExc (List PyVal)
  | [] => .ok []
  | r :: rs =>
    match proj r with
    | none => fieldAnswers proj rs
    | some raw =>
      match int_if_possible raw with
      | .ok v =>
        match fieldAnswers proj rs with
        | .ok vs => .ok (v :: vs)
        | .error e => .error e
      | .error e => .error e

/-- The per-field body of `make_info_dict`'s loop: if any answers were
collected, sort them, take `sorted_answers[int(nanswers / 2)]`, and keep it
unless it `== 0`.  (The index `nanswers / 2` is always in range because
sorting preserves length, so the `getD` default is never used.) -/
def medianOfAnswers (answers : List PyVal) : Except PyExc (Option PyVal) :=
  if answers.length > 0 then
    match pySort answers with
    | .error e => .error e
    | .ok sorted_answers =>
      let median_answer := sorted_answers.getD (answers.length / 2) .vnone
      if pyValEq median_answer (.vint 0) then .ok none else .ok (some median_answer)
  else .ok none

/-- The dictionary `make_info_dict` returns, one optional entry per tracked
field. -/
structure InfoDict where
  CHR2 : Option PyVal := none
  END : Option PyVal := none
  SVTYPE : Option PyVal := none
  SVLEN : Option PyVal := none
deriving DecidableEq, Repr

/-- The median-collecting loop of `make_info_dict` over the fields
`['CHR2', 'END', 'SVTYPE', 'SVLEN']`, in that order. -/
def make_info_dict_medians (records : List RecInfo) : Except PyExc InfoDict :=
  match fieldAnswers (fun r => r.CHR2) records with
  | .error e => .error e
  | .ok a1 =>
    match medianOfAnswers a1 with
    | .error e => .error e
    | .ok chr2 =>
      match fieldAnswers (fun r => r.END) records with
      | .error e => .error e
      | .ok a2 =>
        match medianOfAnswers a2 with
        | .error e => .error e
        | .ok endv =>
          match fieldAnswers (fun r => r.SVTYPE) records with
          | .error e => .error e
          | .ok a3 =>
            match medianOfAnswers a3 with
            | .error e => .error e
            | .ok svtype =>
              match fieldAnswers (fun r => r.SVLEN) records with
              | .error e => .error e
              | .ok a4 =>
                match medianOfAnswers a4 with
                | .error e => .error e
                | .ok svlen =>
                  .ok { CHR2 := chr2, END := endv, SVTYPE := svtype, SVLEN := svlen }

/-- The SVTYPE values that trigger SVLEN synthesis. -/
def svlenTypes : List PyVal :=
  [.vstr "DUP", .vstr "DUP:TANDEM", .vstr "DEL", .vstr "INV"]

/-- The closing step of `make_info_dict`: if `SVTYPE` is present with a value
`in ['DUP', 'DUP:TANDEM', 'DEL', 'INV']` and `SVLEN` is absent, set
`SVLEN = pos2 - pos1`. -/
def applySVLENDefault (info : InfoDict) (pos1 pos2 : Int) : InfoDict :=
  match info.SVTYPE, info.SVLEN with
  | some t, none =>
    if svlenTypes.any (fun e => pyValEq t e) then
      { info with SVLEN := some (.vint (pos2 - pos1)) }
    else info
  | _, _ => info

/-- `make_info_dict(records, pos1, pos2)` from `mergedfile.py`. -/
def make_info_dict (records : List RecInfo) (pos1 pos2 : Int) : Except PyExc InfoDict :=
  match make_info_dict_medians records with
  | .error e => .error e
  | .ok info => .ok (applySVLENDefault info pos1 pos2)

/-- Python slice `s[0:n]`, on the character list of `s`. -/
def strTake (s : String) (n : Nat) : List Char :=
  s.toList.take n

/-- `mapped_to_chromosome(chrom)` from `mergedfile.py`: false when
`chrom[0:2]` is one of `GL`, `MT`, `hs`, `NC` or `chrom[0:1]` is `M`. -/
def mapped_to_chromosome (chrom : String) : Bool :=
  if [String.toList "GL", String.toList "MT", String.toList "hs",
      String.toList "NC"].contains (strTake chrom 2)
     || strTake chrom 1 == String.toList "M" then
    false
  else true

/-- The ingestion-time chromosome check of `merge` (line
`if filterByChromosome and not mapped_to_chromosome(record.chrom): continue`):
true when the record is skipped. -/
def chromosomeFilterDrops (filterByChromosome : Bool) (chrom : String) : Bool :=
  filterByChromosome && !mapped_to_chromosome chrom

/-- A breakpoint side as the driver reads it: `__chrom__`, `__pos__`,
`__strand__`, `__right__` of the variantdict `Location` objects. -/
structure Location where
  chrom : Option String
  pos : Int
  strand : Bool
  right : Bool
deriving DecidableEq, Repr

/-- `Location.withPos`: a copy with the position replaced. -/
def Location.withPos (loc : Location) (newpos : Int) : Location :=
  { loc with pos := newpos }

/-- `bkptRefAltFromPair(loc1, loc2, refstr)` from `mergedfile.py`.  The
`assert loc2.__strand__ == (loc1.__right__ != loc2.__right__)` is modelled as
an `AssertionError`. -/
def bkptRefAltFromPair (loc1 : Location) (loc2 : Option Location)
    (refstr : String := "N") : Except PyExc (String × String) :=
  let alt_after := loc1.right == false
  let bkptstrE : Except PyExc String :=
    match loc2 with
    | none => .ok "."
    | some l2 =>
      match l2.chrom with
      | none => .ok "."
      | some c =>
        let delim := if l2.right then "[" else "]"
        if l2.strand == (loc1.right != l2.right) then
          .ok (delim ++ c ++ ":" ++ toString l2.pos ++ delim)
        else
          .error .AssertionError
  match bkptstrE with
  | .error e => .error e
  | .ok bkptstr =>
    .ok (refstr, if alt_after then refstr ++ bkptstr else bkptstr ++ refstr)

/-- Python `list(set(xs))` for caller-name lists: duplicates removed.  (The
iteration order of a Python set is unspecified; the proofs below use only
membership, duplicate-freeness and length, which do not depend on it.) -/
def pySet (xs : List String) : List String :=
  xs.dedup

/-- Python `str` on the values stored in an `InfoDict` (never `None` there). -/
def pyStr : PyVal → String
  | .vint i => toString i
  | .vstr s => s
  | .vnone => "None"

/-- The INFO mapping built by `infoString(callers, infodict)` inside `merge`:
`SVTYPE`/`SVLEN` stringified when present, optionally `NumCallers`, and
`Callers` as the deduplicated caller list that gets comma-joined.  (The
`type(res) is list` unwrapping in the source is vacuous here because
`make_info_dict` values are scalars, `int_if_possible` having unwrapped
lists already.) -/
structure InfoOut where
  SVTYPE : Option String := none
  SVLEN : Option String := none
  NumCallers : Option Nat := none
  Callers : List String := []
deriving DecidableEq, Repr

/-- `infoString` from `merge` (closure over `output_ncallers`). -/
def infoString (output_ncallers : Bool) (callers : List String)
    (infodict : InfoDict) : InfoOut :=
  { SVTYPE := infodict.SVTYPE.map pyStr,
    SVLEN := infodict.SVLEN.map pyStr,
    NumCallers := if output_ncallers then some (pySet callers).length else none,
    Callers := pySet callers }

/-- The parameters of `merge` that the emission loop reads. -/
structure MergeParams where
  output_ncallers : Bool := false
  min_num_callers : Nat := 0
  filterByChromosome : Bool := true
deriving DecidableEq, Repr

/-- A finalized cluster as yielded by iterating `calldict`: a 3-tuple for an
SNV/indel or a 6-tuple for an SV pair. -/
inductive Variant where
  | snv (loc : Location) (allele : Option (String × String)) (callers : List String)
  | sv (loc1 loc2 : Location) (callers : List String)
       (medianPos1 medianPos2 : Int) (recordscalled : List (String × RecInfo))
deriving DecidableEq, Repr

/-- `variant[2]`, the caller list of either tuple shape. -/
def Variant.callers : Variant → List String
  | .snv _ _ cs => cs
  | .sv _ _ cs _ _ _ => cs

/-- The fields of one printed consensus record. -/
structure OutRecord where
  contig : Option String
  start : Int
  ref : String
  alt : String
  filter : String
  info : InfoOut
deriving DecidableEq, Repr

/-- The filter string of the emission loop:
`"." if len(set(callers)) >= min_num_callers else "LOWSUPPORT"`. -/
def filterStringOf (callers : List String) (min_num_callers : Nat) : String :=
  if (pySet callers).length ≥ min_num_callers then "." else "LOWSUPPORT"

/-- The body of the emission loop of `merge` for one finalized cluster:
`.ok none` when no record is printed (missing SNV allele, or the SV
chromosome check), `.ok (some rec)` when the consensus record `rec` is
printed, `.error` when the body raises.  Field for field from lines 157-197
of `mergedfile.py`; note that the SNV path stores the raw caller list in
`Callers` while the SV path goes through `infoString`. -/
def emittedRecord (p : MergeParams) (variant : Variant) :
    Except PyExc (Option OutRecord) :=
  let filterstring := filterStringOf variant.callers p.min_num_callers
  match variant with
  | .snv loc allele callers =>
    match allele with
    | none => .ok none
    | some al =>
      .ok (some
        { contig := loc.chrom, start := loc.pos, ref := al.1, alt := al.2,
          filter := filterstring,
          info := { Callers := callers,
                    NumCallers :=
                      if p.output_ncallers then some (pySet callers).length else none } })
  | .sv loc1 loc2 callers medianPos1 medianPos2 recordscalled =>
    let skipE : Except PyExc Bool :=
      if p.filterByChromosome then
        match loc2.chrom with
        | none => .error .TypeError
        | some c => .ok (!mapped_to_chromosome c)
      else .ok false
    match skipE with
    | .error e => .error e
    | .ok true => .ok none
    | .ok false =>
      let records := recordscalled.map (fun cr => cr.2)
      let avgloc1 := loc1.withPos medianPos1
      let avgloc2 := loc2.withPos medianPos2
      match bkptRefAltFromPair avgloc1 (some avgloc2) with
      | .error e => .error e
      | .ok ra =>
        match make_info_dict records medianPos1 medianPos2 with
        | .error e => .error e
        | .ok infodict =>
          .ok (some
            { contig := avgloc1.chrom, start := avgloc1.pos,
              ref := ra.1, alt := ra.2,
              filter := filterstring,
              info := infoString p.output_ncallers callers infodict })

/-- The exception filter of the per-file loop of `merge`:
`except (RuntimeError, TypeError, NameError, AttributeError)`. -/
def caughtByMergeLoop : PyExc → Bool
  | .RuntimeError => true
  | .TypeError => true
  | .NameError => true
  | .AttributeError => true
  | _ => false

/-- One input file as the ingestion loop sees it: the records successfully
fed to `calldict.addrecord` before any exception, and the exception (if any)
raised while opening or streaming the file.  Records after the exception are
never reached. -/
structure FileStream (α : Type) where
  records : List α
  exc : Option PyExc := none
deriving DecidableEq, Repr

/-- The per-file ingestion loop of `merge` (lines 105-136), with `acc` the
records already fed to `calldict.addrecord`: each file's records are ingested
in order; an exception in the caught set is re-raised when `debug` and
swallowed otherwise (the file keeps only its records read so far); any other
exception propagates. -/
def mergeIngestFrom {α : Type} (debug : Bool) (acc : List α) :
    List (FileStream α) → Except PyExc (List α)
  | [] => .ok acc
  | f :: rest =>
    match f.exc with
    | none => mergeIngestFrom debug (acc ++ f.records) rest
    | some e =>
      if caughtByMergeLoop e then
        if debug then .error e else mergeIngestFrom debug (acc ++ f.records) rest
      else .error e

/-- The whole ingestion phase of `merge`: the loop started on an empty
`calldict`. -/
def mergeIngest {α : Type} (debug : Bool) (files : List (FileStream α)) :
    Except PyExc (List α) :=
  mergeIngestFrom debug [] files

/-! Theorems. -/

/-- Helper: a printed consensus record's filter string and the list that is
comma-joined into its `Callers` INFO value, read off from the emission body:
the filter comes from the deduplicated caller count on both paths, while
`Callers` is deduplicated only on the SV path. -/
theorem emitted_some_inv (p : MergeParams) (v : Variant) (rec : OutRecord)
    (h : emittedRecord p v = .ok (some rec)) :
    rec.filter = filterStringOf v.callers p.min_num_callers ∧
    rec.info.Callers = (match v with
      | .snv _ _ cs => cs
      | .sv _ _ cs _ _ _ => pySet cs) := by
  cases v with
  | snv loc allele cs =>
    cases allele with
    | none => simp [emittedRecord] at h
    | some al =>
      simp only [emittedRecord, Except.ok.injEq, Option.some.injEq] at h
      subst h
      exact ⟨rfl, rfl⟩
  | sv l1 l2 cs m1 m2 rc =>
    simp only [emittedRecord] at h
    split at h
    · simp at h
    · simp at h
    · split at h
      · simp at h
      · split at h
        · simp at h
        · simp only [Except.ok.injEq, Option.some.injEq] at h
          subst h
          exact ⟨rfl, rfl⟩

/-- C1: as stated the claim fails.  On the SNV/indel emission path the
`Callers` INFO value joins the raw caller list without deduplication: a
cluster whose caller list is `["mutect", "mutect"]` is emitted with
`Callers` holding the name twice. -/
theorem C1_counterexample :
    emittedRecord {} (Variant.snv ⟨some "1", 100, false, false⟩ (some ("A", "T"))
        ["mutect", "mutect"]) =
      .ok (some { contig := some "1", start := 100, ref := "A", alt := "T",
                  filter := ".",
                  info := { Callers := ["mutect", "mutect"] } }) ∧
    ¬ List.Nodup ["mutect", "mutect"] :=
  ⟨rfl, by decide⟩

/-- C1 (amended): a caller whose several records join one cluster contributes
exactly 1 to the distinct-caller count on both emission paths, and exactly 1
occurrence of its name in the `Callers` INFO list on the SV path (whose list
is duplicate-free); on the SNV/indel path, however, `Callers` is the raw
caller list, so duplicates are preserved there. -/
theorem C1_amended (p : MergeParams) (v : Variant) (rec : OutRecord)
    (h : emittedRecord p v = .ok (some rec)) :
    (∀ c ∈ v.callers, (pySet v.callers).count c = 1) ∧
    (∀ l1 l2 cs m1 m2 rc, v = .sv l1 l2 cs m1 m2 rc →
      rec.info.Callers.Nodup ∧ ∀ c ∈ cs, rec.info.Callers.count c = 1) ∧
    (∀ loc al cs, v = .snv loc al cs → rec.info.Callers = cs) := by
  refine ⟨fun c hc => ?_, fun l1 l2 cs m1 m2 rc hv => ?_, fun loc al cs hv => ?_⟩
  · exact List.count_eq_one_of_mem (List.nodup_dedup _) (List.mem_dedup.mpr hc)
  · subst hv
    have hcal := (emitted_some_inv p _ rec h).2
    simp only at hcal
    rw [hcal]
    exact ⟨List.nodup_dedup _,
      fun c hc => List.count_eq_one_of_mem (List.nodup_dedup _) (List.mem_dedup.mpr hc)⟩
  · subst hv
    exact (emitted_some_inv p _ rec h).2

/-- Witness for C1 (amended): a concrete SV cluster whose caller list is
`["a", "a", "b"]` is emitted with a duplicate-free `Callers` list in which
`"a"` occurs once, and `"a"` counts once toward the distinct-caller count. -/
theorem C1_amended_witness :
    (pySet ["a", "a", "b"]).count "a" = 1 ∧
    ({ contig := some "1", start := 1000, ref := "N", alt := "N[1:2000[",
       filter := "LOWSUPPORT",
       info := { SVTYPE := some "DEL", SVLEN := some "1000",
                 NumCallers := none, Callers := ["a", "b"] } } : OutRecord).info.Callers.Nodup := by
  have h : emittedRecord { min_num_callers := 3 }
      (Variant.sv ⟨some "1", 990, false, false⟩ ⟨some "1", 2000, true, true⟩
        ["a", "a", "b"] 1000 2000
        [("a", { SVTYPE := some (.single (.vstr "DEL")) })]) =
      .ok (some { contig := some "1", start := 1000, ref := "N", alt := "N[1:2000[",
                  filter := "LOWSUPPORT",
                  info := { SVTYPE := some "DEL", SVLEN := some "1000",
                            NumCallers := none, Callers := ["a", "b"] } }) := rfl
  exact ⟨(C1_amended _ _ _ h).1 "a" (by decide),
    ((C1_amended _ _ _ h).2.1 _ _ _ _ _ _ rfl).1⟩

/-- C5: every emitted consensus record carries filter `LOWSUPPORT` exactly
when the number of distinct caller names of its cluster is strictly below
`min_num_callers`, and filter `.` (pass) otherwise. -/
theorem C5_lowsupport (p : MergeParams) (v : Variant) (rec : OutRecord)
    (h : emittedRecord p v = .ok (some rec)) :
    (rec.filter = "LOWSUPPORT" ↔ v.callers.toFinset.card < p.min_num_callers) ∧
    (rec.filter = "." ↔ p.min_num_callers ≤ v.callers.toFinset.card) := by
  have hf := (emitted_some_inv p v rec h).1
  rw [hf]
  unfold filterStringOf
  rw [List.card_toFinset]
  unfold pySet
  split_ifs with hge
  · constructor
    · constructor
      · intro habs
        exact absurd habs (by decide)
      · intro hlt
        omega
    · simp [hge]
  · constructor
    · simp
      omega
    · constructor
      · intro habs
        exact absurd habs (by decide)
      · intro hle
        omega

/-- Witness for C5: an SNV cluster with two distinct callers is emitted with
filter `LOWSUPPORT` under `min_num_callers = 3` and with filter `.` under
`min_num_callers = 2`. -/
theorem C5_lowsupport_witness :
    ({ contig := some "1", start := 100, ref := "A", alt := "T",
       filter := "LOWSUPPORT",
       info := { Callers := ["mutect", "strelka"] } } : OutRecord).filter = "LOWSUPPORT" ∧
    ({ contig := some "1", start := 100, ref := "A", alt := "T",
       filter := ".",
       info := { Callers := ["mutect", "strelka"] } } : OutRecord).filter = "." := by
  have h3 : emittedRecord { min_num_callers := 3 }
      (Variant.snv ⟨some "1", 100, false, false⟩ (some ("A", "T"))
        ["mutect", "strelka"]) =
      .ok (some { contig := some "1", start := 100, ref := "A", alt := "T",
                  filter := "LOWSUPPORT",
                  info := { Callers := ["mutect", "strelka"] } }) := rfl
  have h2 : emittedRecord { min_num_callers := 2 }
      (Variant.snv ⟨some "1", 100, false, false⟩ (some ("A", "T"))
        ["mutect", "strelka"]) =
      .ok (some { contig := some "1", start := 100, ref := "A", alt := "T",
                  filter := ".",
                  info := { Callers := ["mutect", "strelka"] } }) := rfl
  refine ⟨(C5_lowsupport _ _ _ h3).1.mpr ?_, (C5_lowsupport _ _ _ h2).2.mpr ?_⟩
  · rw [List.card_toFinset]
    decide
  · rw [List.card_toFinset]
    decide

/-- C9: with `filterByChromosome` true, the SV emission path suppresses every
cluster whose second breakpoint chromosome is not mapped to a proper
chromosome (no record is printed); the SNV/indel path always prints a record
when the allele is present, and with `filterByChromosome` false the SV path
never skips a cluster at this check. -/
theorem C9_sv_chrom_suppression (p : MergeParams) :
    (∀ l1 l2 cs m1 m2 rc c, l2.chrom = some c → mapped_to_chromosome c = false →
      p.filterByChromosome = true →
      emittedRecord p (.sv l1 l2 cs m1 m2 rc) = .ok none) ∧
    (∀ loc al cs,
      emittedRecord p (.snv loc (some al) cs) =
        .ok (some { contig := loc.chrom, start := loc.pos, ref := al.1, alt := al.2,
                    filter := filterStringOf cs p.min_num_callers,
                    info := { Callers := cs,
                              NumCallers := if p.output_ncallers then
                                some (pySet cs).length else none } })) ∧
    (∀ l1 l2 cs m1 m2 rc, p.filterByChromosome = false →
      emittedRecord p (.sv l1 l2 cs m1 m2 rc) ≠ .ok none) := by
  refine ⟨fun l1 l2 cs m1 m2 rc c hc hm hf => ?_, fun loc al cs => rfl,
    fun l1 l2 cs m1 m2 rc hf => ?_⟩
  · simp [emittedRecord, hf, hc, hm]
  · simp only [emittedRecord, hf, Bool.false_eq_true, if_false]
    split
    · simp
    · split
      · simp
      · simp

/-- Witness for C9: a concrete SV cluster mated to contig `GL000220.1` is
suppressed when `filterByChromosome` is true, and the same cluster is not
skipped when `filterByChromosome` is false. -/
theorem C9_sv_chrom_suppression_witness :
    emittedRecord { filterByChromosome := true }
      (.sv ⟨some "1", 1000, false, false⟩ ⟨some "GL000220.1", 2000, true, true⟩
        ["a"] 1000 2000 []) = .ok none ∧
    emittedRecord { filterByChromosome := false }
      (.sv ⟨some "1", 1000, false, false⟩ ⟨some "GL000220.1", 2000, true, true⟩
        ["a"] 1000 2000 []) ≠ .ok none := by
  refine ⟨(C9_sv_chrom_suppression _).1 _ _ _ _ _ _ "GL000220.1" rfl (by decide) rfl,
    (C9_sv_chrom_suppression _).2.2 _ _ _ _ _ _ rfl⟩

/-- Helper: the Python equality test on our values coincides with equality. -/
theorem pyValEq_eq_true_iff (x y : PyVal) : pyValEq x y = true ↔ x = y := by
  cases x <;> cases y <;> simp [pyValEq]

/-- C2: as stated the claim fails: for the collected value list `[10, 20]`
the per-field consensus is the element at index `2 / 2 = 1` of the sorted
list, namely `20` — not the lower median `10`. -/
theorem C2_counterexample :
    make_info_dict [{ END := some (.single (.vint 10)) },
                    { END := some (.single (.vint 20)) }] 0 0 =
      .ok { END := some (.vint 20) } ∧
    PyVal.vint 20 ≠ PyVal.vint 10 :=
  ⟨rfl, by decide⟩

/-- Helper: a field no record carries collects no answers. -/
theorem fieldAnswers_absent (proj : RecInfo → Option RawVal)
    (records : List RecInfo) (h : ∀ r ∈ records, proj r = none) :
    fieldAnswers proj records = .ok [] := by
  induction records with
  | nil => rfl
  | cons r rs ih =>
    simp only [fieldAnswers]
    rw [h r (List.mem_cons_self _ _)]
    exact ih (fun g hg => h g (List.mem_cons_of_mem _ hg))

/-- Helper: records carrying only an END value contribute exactly their END
values, in order, as the collected END answers. -/
theorem fieldAnswers_end_map (vals : List Int) :
    fieldAnswers (fun r => r.END)
      (vals.map (fun i => { END := some (.single (.vint i)) })) =
      .ok (vals.map PyVal.vint) := by
  induction vals with
  | nil => rfl
  | cons i is ih => simp [fieldAnswers, int_if_possible, pyInt, ih]

/-- Helper: on ints, `insertSorted` is Mathlib's ordered insert. -/
theorem insertSorted_eq_orderedInsert (a : Int) (l : List Int) :
    insertSorted (fun x y => decide (x ≤ y)) a l =
      List.orderedInsert (· ≤ ·) a l := by
  induction l with
  | nil => rfl
  | cons b bs ih => simp [insertSorted, List.orderedInsert, ih]

/-- Helper: on ints, `pySortList` is Mathlib's insertion sort. -/
theorem pySortList_eq_insertionSort (l : List Int) :
    pySortList (fun x y => decide (x ≤ y)) l =
      List.insertionSort (· ≤ ·) l := by
  induction l with
  | nil => rfl
  | cons a as ih =>
    simp [pySortList, List.insertionSort, ih, insertSorted_eq_orderedInsert]

/-- Helper: a list of int values passes the homogeneity check of `pySort`
and is sorted as ints. -/
theorem pySort_int_map (vals : List Int) :
    pySort (vals.map PyVal.vint) =
      .ok ((pySortList (fun a b => decide (a ≤ b)) vals).map PyVal.vint) := by
  have hall : (vals.map PyVal.vint).all
      (fun v => match v with | .vint _ => true | _ => false) = true := by
    induction vals with
    | nil => rfl
    | cons i is ih => simp_all
  have hfm : (vals.map PyVal.vint).filterMap
      (fun v => match v with | .vint i => some i | _ => none) = vals := by
    induction vals with
    | nil => rfl
    | cons i is ih => simp_all
  simp [pySort, hall, hfm]

/-- Helper: the median selection over any nonempty list of collected int
values picks the element at index `n / 2` of the sorted list, the sorted
list being the unique nondecreasing permutation of the values. -/
theorem medianOfAnswers_int (vals sorted2 : List Int) (hne : vals ≠ [])
    (hperm : sorted2.Perm vals) (hsorted : sorted2.Sorted (· ≤ ·))
    (hz : sorted2.getD (vals.length / 2) 0 ≠ 0) :
    medianOfAnswers (vals.map PyVal.vint) =
      .ok (some (.vint (sorted2.getD (vals.length / 2) 0))) := by
  have hn : 0 < vals.length := List.length_pos.mpr hne
  have hsorteq : pySortList (fun a b => decide (a ≤ b)) vals = sorted2 := by
    rw [pySortList_eq_insertionSort]
    exact List.eq_of_perm_of_sorted
      ((List.perm_insertionSort _ vals).trans hperm.symm)
      (List.sorted_insertionSort _ vals) hsorted
  have hidx : vals.length / 2 < sorted2.length := by
    rw [hperm.length_eq]
    exact Nat.div_lt_self hn one_lt_two
  have hget : (sorted2.map PyVal.vint).getD (vals.length / 2) .vnone =
      PyVal.vint (sorted2.getD (vals.length / 2) 0) := by
    rw [List.getD_eq_getElem?_getD, List.getD_eq_getElem?_getD,
        List.getElem?_eq_getElem (by simpa using hidx),
        List.getElem?_eq_getElem hidx]
    simp
  have hz2 : sorted2[vals.length / 2]?.getD 0 ≠ 0 := by
    rw [← List.getD_eq_getElem?_getD]
    exact hz
  unfold medianOfAnswers
  rw [if_pos (by simpa using hn), pySort_int_map vals, hsorteq]
  simp only [List.length_map]
  rw [hget]
  simp [pyValEq, hz2]

/-- C2 (amended): for every list of values collected for one INFO field —
even counts included — the consensus is the element at index `n / 2` of the
sorted list: the upper median for even counts, not an average and not the
lower median.  Stated over an arbitrary collected int list `vals` and its
(unique) sorted permutation. -/
theorem C2_amended (vals sorted2 : List Int) (hne : vals ≠ [])
    (hperm : sorted2.Perm vals) (hsorted : sorted2.Sorted (· ≤ ·))
    (hz : sorted2.getD (vals.length / 2) 0 ≠ 0) :
    make_info_dict (vals.map (fun i => { END := some (.single (.vint i)) })) 0 0 =
      .ok { END := some (.vint (sorted2.getD (vals.length / 2) 0)) } := by
  have habs : ∀ proj : RecInfo → Option RawVal,
      (∀ i : Int, proj { END := some (.single (.vint i)) } = none) →
      fieldAnswers proj
        (vals.map (fun i => { END := some (.single (.vint i)) })) = .ok [] := by
    intro proj hproj
    refine fieldAnswers_absent proj _ (fun r hr => ?_)
    obtain ⟨i, _, rfl⟩ := List.mem_map.mp hr
    exact hproj i
  have h1 := habs (fun r => r.CHR2) (fun i => rfl)
  have h3 := habs (fun r => r.SVTYPE) (fun i => rfl)
  have h4 := habs (fun r => r.SVLEN) (fun i => rfl)
  have h2 := fieldAnswers_end_map vals
  have hmed := medianOfAnswers_int vals sorted2 hne hperm hsorted hz
  have hnil : medianOfAnswers ([] : List PyVal) = .ok none := rfl
  simp only [make_info_dict, make_info_dict_medians, h1, h2, h3, h4, hmed, hnil]
  rfl

/-- Witness for C2 (amended): with collected END values `[10, 20]` — an
even-count list whose sorted form is itself — the consensus END is the
element at index `1`, that is `20`. -/
theorem C2_amended_witness :
    make_info_dict [{ END := some (.single (.vint 10)) },
                    { END := some (.single (.vint 20)) }] 0 0 =
      .ok { END := some (.vint 20) } := by
  have h := C2_amended [10, 20] [10, 20] (by decide) (List.Perm.refl _)
    (by decide) (by decide)
  exact h

/-- C6: as stated the claim fails for `SVLEN`: with a single collected
`SVLEN` of `0` and `SVTYPE` resolving to `DEL`, the zero median is omitted by
the median loop but `SVLEN` is then re-synthesized as `pos2 - pos1 = 100`, so
it is present in the returned dictionary and in the emitted INFO. -/
theorem C6_counterexample :
    make_info_dict [{ SVTYPE := some (.single (.vstr "DEL")),
                      SVLEN := some (.single (.vint 0)) }] 100 200 =
      .ok { SVTYPE := some (.vstr "DEL"), SVLEN := some (.vint 100) } ∧
    ({ SVTYPE := some (.vstr "DEL"), SVLEN := some (.vint 100) } : InfoDict).SVLEN ≠ none ∧
    (infoString false [] { SVTYPE := some (.vstr "DEL"), SVLEN := some (.vint 100) }).SVLEN =
      some "100" :=
  ⟨rfl, by decide, rfl⟩

/-- C6 (amended): a computed median equal to `0` makes the median loop omit
the field; `CHR2`, `END` and `SVTYPE` then stay absent from the returned
dictionary, but an absent `SVLEN` is re-synthesized as `pos2 - pos1` exactly
when `SVTYPE` resolved to one of DUP, DUP:TANDEM, DEL, INV. -/
theorem C6_amended :
    (∀ answers sorted', pySort answers = .ok sorted' →
      pyValEq (sorted'.getD (answers.length / 2) .vnone) (.vint 0) = true →
      medianOfAnswers answers = .ok none) ∧
    (∀ d p1 p2, (applySVLENDefault d p1 p2).CHR2 = d.CHR2 ∧
      (applySVLENDefault d p1 p2).END = d.END ∧
      (applySVLENDefault d p1 p2).SVTYPE = d.SVTYPE) ∧
    (∀ d p1 p2, d.SVLEN = none →
      (∀ t, d.SVTYPE = some t → t ∈ svlenTypes →
        (applySVLENDefault d p1 p2).SVLEN = some (.vint (p2 - p1))) ∧
      (∀ t, d.SVTYPE = some t → t ∉ svlenTypes →
        (applySVLENDefault d p1 p2).SVLEN = none) ∧
      (d.SVTYPE = none → (applySVLENDefault d p1 p2).SVLEN = none)) := by
  refine ⟨fun answers sorted' hs hz => ?_, fun d p1 p2 => ?_, fun d p1 p2 hsl => ?_⟩
  · unfold medianOfAnswers
    split_ifs with hlen
    · rw [hs]
      exact if_pos hz
    · rfl
  · unfold applySVLENDefault
    split
    all_goals first
      | exact ⟨rfl, rfl, rfl⟩
      | (split <;> exact ⟨rfl, rfl, rfl⟩)
  · refine ⟨fun t hst htm => ?_, fun t hst htm => ?_, fun hst => ?_⟩
    · have hany : svlenTypes.any (fun e => pyValEq t e) = true :=
        List.any_eq_true.mpr ⟨t, htm, (pyValEq_eq_true_iff t t).mpr rfl⟩
      unfold applySVLENDefault
      rw [hst, hsl]
      simp [hany]
    · have hany : svlenTypes.any (fun e => pyValEq t e) = false := by
        rw [Bool.eq_false_iff]
        intro habs
        obtain ⟨u, hu, hequ⟩ := List.any_eq_true.mp habs
        exact htm (((pyValEq_eq_true_iff t u).mp hequ) ▸ hu)
      unfold applySVLENDefault
      rw [hst, hsl]
      simp [hany, hsl]
    · unfold applySVLENDefault
      rw [hst, hsl]

/-- Witness for C6 (amended): a collected value list `[0]` yields no median
entry; with `SVTYPE = DEL` an absent `SVLEN` becomes `200 - 100 = 100`, while
with `SVTYPE = INS` it stays absent. -/
theorem C6_amended_witness :
    medianOfAnswers [PyVal.vint 0] = .ok none ∧
    (applySVLENDefault { SVTYPE := some (.vstr "DEL") } 100 200).SVLEN =
      some (.vint 100) ∧
    (applySVLENDefault { SVTYPE := some (.vstr "INS") } 100 200).SVLEN = none := by
  refine ⟨C6_amended.1 [.vint 0] [.vint 0] rfl rfl, ?_, ?_⟩
  · exact (C6_amended.2.2 { SVTYPE := some (.vstr "DEL") } 100 200 rfl).1 _ rfl (by decide)
  · refine (C6_amended.2.2 { SVTYPE := some (.vstr "INS") } 100 200 rfl).2.1 _ rfl ?_
    decide

/-- C7: `make_info_dict` is the median loop followed by the SVLEN default:
when the median dictionary has `SVTYPE` in {DUP, DUP:TANDEM, DEL, INV} and no
`SVLEN`, the default step sets `SVLEN = pos2 - pos1`; in every other case the
dictionary is returned unchanged. -/
theorem C7_svlen_synthesis (records : List RecInfo) (p1 p2 : Int) (d : InfoDict)
    (h : make_info_dict_medians records = .ok d) :
    make_info_dict records p1 p2 = .ok (applySVLENDefault d p1 p2) ∧
    (∀ t, d.SVTYPE = some t → t ∈ svlenTypes → d.SVLEN = none →
      applySVLENDefault d p1 p2 = { d with SVLEN := some (.vint (p2 - p1)) }) ∧
    (d.SVLEN ≠ none → applySVLENDefault d p1 p2 = d) ∧
    (∀ t, d.SVTYPE = some t → t ∉ svlenTypes → applySVLENDefault d p1 p2 = d) ∧
    (d.SVTYPE = none → applySVLENDefault d p1 p2 = d) := by
  refine ⟨by simp [make_info_dict, h], fun t hst htm hsl => ?_, fun hsl => ?_,
    fun t hst htm => ?_, fun hst => ?_⟩
  · have hany : svlenTypes.any (fun e => pyValEq t e) = true :=
      List.any_eq_true.mpr ⟨t, htm, (pyValEq_eq_true_iff t t).mpr rfl⟩
    unfold applySVLENDefault
    rw [hst, hsl]
    simp [hany]
  · unfold applySVLENDefault
    split
    · next heq1 heq2 => exact absurd heq2 hsl
    · rfl
  · have hany : svlenTypes.any (fun e => pyValEq t e) = false := by
      rw [Bool.eq_false_iff]
      intro habs
      obtain ⟨u, hu, hequ⟩ := List.any_eq_true.mp habs
      exact htm (((pyValEq_eq_true_iff t u).mp hequ) ▸ hu)
    unfold applySVLENDefault
    split
    · next heq1 heq2 =>
      rw [hst] at heq1
      cases heq1
      simp [hany]
    · rfl
  · unfold applySVLENDefault
    split
    · next heq1 heq2 => rw [hst] at heq1; cases heq1
    · rfl

/-- Witness for C7: one record with `SVTYPE = DEL` and no `SVLEN`, positions
100 and 250, yields `SVLEN = 150`; with an `SVLEN` median of `7` already
present the dictionary is unchanged. -/
theorem C7_svlen_synthesis_witness :
    make_info_dict [{ SVTYPE := some (.single (.vstr "DEL")) }] 100 250 =
      .ok (applySVLENDefault { SVTYPE := some (.vstr "DEL") } 100 250) ∧
    applySVLENDefault { SVTYPE := some (.vstr "DEL") } 100 250 =
      { SVTYPE := some (.vstr "DEL"), SVLEN := some (.vint 150) } ∧
    applySVLENDefault { SVTYPE := some (.vstr "DEL"), SVLEN := some (.vint 7) } 100 250 =
      { SVTYPE := some (.vstr "DEL"), SVLEN := some (.vint 7) } := by
  have h1 : make_info_dict_medians [{ SVTYPE := some (.single (.vstr "DEL")) }] =
      .ok { SVTYPE := some (.vstr "DEL") } := rfl
  have h2 : make_info_dict_medians
      [{ SVTYPE := some (.single (.vstr "DEL")), SVLEN := some (.single (.vint 7)) }] =
      .ok { SVTYPE := some (.vstr "DEL"), SVLEN := some (.vint 7) } := rfl
  refine ⟨(C7_svlen_synthesis _ 100 250 _ h1).1, ?_, ?_⟩
  · exact ((C7_svlen_synthesis _ 100 250 _ h1).2.1 _ rfl (by decide) rfl).trans rfl
  · exact (C7_svlen_synthesis _ 100 250 _ h2).2.2.1 (by decide)

/-- C10: `int_if_possible` replaces a list argument by its first element,
returns the integer conversion when `int` succeeds and the unwrapped value
unchanged when `int` raises `ValueError`; only `ValueError` is recovered, so
any other conversion failure — e.g. the `TypeError` that `int(None)` raises —
propagates to the caller of `make_info_dict`. -/
theorem C10_int_if_possible :
    (∀ v vs, int_if_possible (.listv (v :: vs)) = int_if_possible (.single v)) ∧
    (∀ v i, pyInt v = .ok i → int_if_possible (.single v) = .ok (.vint i)) ∧
    (∀ v, pyInt v = .error .ValueError → int_if_possible (.single v) = .ok v) ∧
    (∀ v e, pyInt v = .error e → e ≠ .ValueError → int_if_possible (.single v) = .error e) ∧
    int_if_possible (.single .vnone) = .error .TypeError ∧
    (∀ raw e p1 p2, int_if_possible raw = .error e →
      make_info_dict [{ CHR2 := some raw }] p1 p2 = .error e) := by
  refine ⟨fun v vs => rfl, fun v i h => ?_, fun v h => ?_, fun v e h hne => ?_, rfl,
    fun raw e p1 p2 h => ?_⟩
  · simp [int_if_possible, h]
  · simp [int_if_possible, h]
  · cases e <;> simp_all [int_if_possible]
  · simp [make_info_dict, make_info_dict_medians, fieldAnswers, h]

/-- Witness for C10: `"17"` converts to the int `17`, `"DEL"` is returned
unchanged through the caught `ValueError`, and `None` makes
`make_info_dict` itself raise `TypeError`. -/
theorem C10_int_if_possible_witness :
    int_if_possible (.single (.vstr "17")) = .ok (.vint 17) ∧
    int_if_possible (.single (.vstr "DEL")) = .ok (.vstr "DEL") ∧
    int_if_possible (.single .vnone) = .error .TypeError ∧
    make_info_dict [{ CHR2 := some (.single .vnone) }] 0 0 = .error .TypeError :=
  ⟨C10_int_if_possible.2.1 _ 17 rfl, C10_int_if_possible.2.2.1 _ rfl,
    C10_int_if_possible.2.2.2.2.1, C10_int_if_possible.2.2.2.2.2 _ _ 0 0 rfl⟩

/-- C3: for mated locations satisfying the orientation precondition,
`bkptRefAltFromPair` returns ref `"N"` and an alt built from the bracket `[`
if `loc2.isRightEnd` else `]` around `chrom:pos` of `loc2`, placed after the
ref exactly when `loc1.isRightEnd` is false and before it otherwise; a
missing mate or mate chromosome degenerates to `"."`, with no precondition
required. -/
theorem C3_bkptRefAltFromPair (loc1 l2 : Location) (c : String)
    (hc : l2.chrom = some c) (hpre : l2.strand = (loc1.right != l2.right)) :
    bkptRefAltFromPair loc1 (some l2) =
      .ok ("N",
        if loc1.right = false then
          "N" ++ ((if l2.right then "[" else "]") ++ c ++ ":" ++ toString l2.pos ++
                  (if l2.right then "[" else "]"))
        else
          ((if l2.right then "[" else "]") ++ c ++ ":" ++ toString l2.pos ++
           (if l2.right then "[" else "]")) ++ "N") ∧
    (∀ la lb : Location, lb.chrom = none →
      bkptRefAltFromPair la (some lb) =
        .ok ("N", if la.right = false then "N" ++ "." else "." ++ "N")) ∧
    (∀ la : Location,
      bkptRefAltFromPair la none =
        .ok ("N", if la.right = false then "N" ++ "." else "." ++ "N")) := by
  refine ⟨?_, fun la lb hlb => ?_, fun la => ?_⟩
  · cases hr1 : loc1.right <;> cases hr2 : l2.right <;>
      simp_all [bkptRefAltFromPair]
  · cases hr : la.right <;> simp [bkptRefAltFromPair, hlb, hr]
  · cases hr : la.right <;> simp [bkptRefAltFromPair, hr]

/-- Witness for C3: with a known mate the alt is `N[2:500[`; an unknown mate
chromosome gives `N.`; a missing mate on a right-end first breakpoint gives
`.N`. -/
theorem C3_bkptRefAltFromPair_witness :
    bkptRefAltFromPair ⟨some "1", 1000, false, false⟩
      (some ⟨some "2", 500, true, true⟩) = .ok ("N", "N[2:500[") ∧
    bkptRefAltFromPair ⟨some "1", 1000, false, false⟩
      (some ⟨none, 500, true, true⟩) = .ok ("N", "N.") ∧
    bkptRefAltFromPair ⟨some "1", 1000, false, true⟩ none = .ok ("N", ".N") := by
  have h := C3_bkptRefAltFromPair ⟨some "1", 1000, false, false⟩
    ⟨some "2", 500, true, true⟩ "2" rfl rfl
  exact ⟨h.1.trans rfl, (h.2.1 _ ⟨none, 500, true, true⟩ rfl).trans rfl,
    (h.2.2 ⟨some "1", 1000, false, true⟩).trans rfl⟩

/-- Helper: a prefix of exception-free files only accumulates its records. -/
theorem mergeIngestFrom_clean {α : Type} (debug : Bool)
    (pre rest : List (FileStream α)) (hpre : ∀ f ∈ pre, f.exc = none)
    (acc : List α) :
    mergeIngestFrom debug acc (pre ++ rest) =
      mergeIngestFrom debug (pre.foldl (fun l f => l ++ f.records) acc) rest := by
  induction pre generalizing acc with
  | nil => rfl
  | cons f fs ih =>
    have hf : f.exc = none := hpre f (List.mem_cons_self _ _)
    rw [List.cons_append]
    show (match f.exc with
          | none => mergeIngestFrom debug (acc ++ f.records) (fs ++ rest)
          | some e =>
            if caughtByMergeLoop e then
              if debug then .error e
              else mergeIngestFrom debug (acc ++ f.records) (fs ++ rest)
            else .error e) = _
    rw [hf]
    exact ih (fun g hg => hpre g (List.mem_cons_of_mem _ hg)) (acc ++ f.records)

/-- C4: as stated the claim fails: the per-file recovery catches only
RuntimeError, TypeError, NameError and AttributeError, so a `ValueError`
raised while streaming a file aborts the whole run even with `debug` false,
instead of being dropped. -/
theorem C4_counterexample :
    mergeIngest false ([⟨[1, 2], some .ValueError⟩, ⟨[3], none⟩] :
      List (FileStream Nat)) = .error .ValueError ∧
    caughtByMergeLoop .ValueError = false :=
  ⟨rfl, rfl⟩

/-- C4 (amended): only exceptions of type RuntimeError, TypeError, NameError
or AttributeError raised while reading or ingesting a file are recovered:
for such an exception the file keeps the records ingested before it, the
remaining files are processed normally when `debug` is false, and the first
such exception is re-raised when `debug` is true; an exception of any other
type propagates regardless of `debug`. -/
theorem C4_amended {α : Type} (pre post : List (FileStream α)) (recs : List α)
    (e : PyExc) (he : caughtByMergeLoop e = true)
    (hpre : ∀ f ∈ pre, f.exc = none) :
    mergeIngest false (pre ++ ⟨recs, some e⟩ :: post) =
      mergeIngest false (pre ++ ⟨recs, none⟩ :: post) ∧
    mergeIngest true (pre ++ ⟨recs, some e⟩ :: post) = .error e ∧
    (∀ e2, caughtByMergeLoop e2 = false → ∀ d : Bool,
      mergeIngest d (pre ++ ⟨recs, some e2⟩ :: post) = .error e2) := by
  refine ⟨?_, ?_, fun e2 he2 d => ?_⟩
  · unfold mergeIngest
    rw [mergeIngestFrom_clean false pre (⟨recs, some e⟩ :: post) hpre [],
        mergeIngestFrom_clean false pre (⟨recs, none⟩ :: post) hpre []]
    simp [mergeIngestFrom, he]
  · unfold mergeIngest
    rw [mergeIngestFrom_clean true pre (⟨recs, some e⟩ :: post) hpre []]
    simp [mergeIngestFrom, he]
  · unfold mergeIngest
    rw [mergeIngestFrom_clean d pre (⟨recs, some e2⟩ :: post) hpre []]
    simp [mergeIngestFrom, he2]

/-- Witness for C4 (amended): a `RuntimeError` in the first file is dropped
with `debug` false (the run behaves as if that file simply ended there),
re-raised with `debug` true, and an `OSError` aborts the run even with
`debug` false. -/
theorem C4_amended_witness :
    mergeIngest false ([⟨[1, 2], some .RuntimeError⟩, ⟨[3], none⟩] :
        List (FileStream Nat)) =
      mergeIngest false ([⟨[1, 2], none⟩, ⟨[3], none⟩] : List (FileStream Nat)) ∧
    mergeIngest true ([⟨[1, 2], some .RuntimeError⟩, ⟨[3], none⟩] :
        List (FileStream Nat)) = .error .RuntimeError ∧
    mergeIngest false ([⟨[1, 2], some .OSError⟩, ⟨[3], none⟩] :
        List (FileStream Nat)) = .error .OSError := by
  have h := C4_amended ([] : List (FileStream Nat)) [⟨[3], none⟩] [1, 2]
    .RuntimeError rfl (fun f hf => absurd hf (List.not_mem_nil f))
  exact ⟨h.1, h.2.1, h.2.2 .OSError rfl false⟩

/-- C8: `mapped_to_chromosome` returns false exactly for contig names whose
leading characters match one of the patterns GL*, MT*, hs*, NC*, M*; at
ingestion a record on contig GL000220.1 is dropped by the chromosome check
exactly when `filterByChromosome` is true. -/
theorem C8_mapped_to_chromosome :
    (∀ chrom : String, mapped_to_chromosome chrom = false ↔
      (strTake chrom 2 = String.toList "GL" ∨ strTake chrom 2 = String.toList "MT" ∨
       strTake chrom 2 = String.toList "hs" ∨ strTake chrom 2 = String.toList "NC" ∨
       strTake chrom 1 = String.toList "M")) ∧
    chromosomeFilterDrops true "GL000220.1" = true ∧
    chromosomeFilterDrops false "GL000220.1" = false := by
  refine ⟨fun chrom => ?_, by decide, by decide⟩
  have h1 : mapped_to_chromosome chrom = false ↔
      ([String.toList "GL", String.toList "MT", String.toList "hs",
        String.toList "NC"].contains (strTake chrom 2)
       || strTake chrom 1 == String.toList "M") = true := by
    unfold mapped_to_chromosome
    split_ifs with hcond
    · exact iff_of_true rfl hcond
    · exact iff_of_false (by decide) hcond
  rw [h1]
  simp only [Bool.or_eq_true, List.elem_iff, List.mem_cons,
    List.not_mem_nil, or_false, beq_iff_eq]
  tauto

end Mergevcf
